import Mathlib

/-! iSH-proxy: service supervisor, discovery script and relay loops

A shallow embedding of the two program variants of the repository,
`iproxy.go` (namespace `IProxy`) and `myproxy.go` (namespace `MyProxy`).
Both declare the same record `Props`; they differ in how `main` builds it,
which services it dispatches, what the `/proxy` handler writes and how `loop`
ends the process.

Conventions of the embedding:

* Go `string` is `String`, Go `int` is `Int` (no arithmetic is performed on
  the ports, so the machine width never matters);
* `fmt.Sprintf` is interpreted by `sprintf`, which walks the format text verb
  by verb the way package `fmt` does for the verbs the program uses;
* an `error` or `net.Addr` value printed with `%v` enters `sprintf` as the
  text of its `Error()` / `String()` method, which is what `%v` prints;
* a message handed to package `log` is recorded as the message text, without
  the time stamp the logger puts in front of it;
* the command line is the list of flags it supplies, each with its value,
  from left to right;
* a goroutine started with `go f(x)` is recorded as a `Service` value in the
  list of dispatched units, in program order;
* blocking calls into the operating system (listen, read, write, signal
  delivery) receive their result from an explicit environment argument.
-/

namespace ISHProxy

/-! ## Data model -/

/-- The configuration record `Props` (the same seven fields in both files). -/
structure Props where
  addr : String
  bind : String
  socks : Int
  http : Int
  discovery : Int
  verbose : Bool
  location : Bool
deriving DecidableEq, Repr

/-! ## Package `fmt` -/

/-- An operand handed to a formatting function: a Go `string` or a Go `int`. -/
inductive Arg where
  | str (s : String)
  | int (n : Int)
deriving DecidableEq, Repr

/-- Decimal text of an integer, as verb `%d` prints it. -/
def formatInt : Int → List Char
  | Int.ofNat m => Nat.toDigits 10 m
  | Int.negSucc m => '-' :: Nat.toDigits 10 (m + 1)

/-- Go type name of an operand, used in the bad-verb and extra-operand texts. -/
def Arg.typeName : Arg → List Char
  | Arg.str _ => "string".data
  | Arg.int _ => "int".data

/-- Default (`%v`) text of an operand. -/
def Arg.default : Arg → List Char
  | Arg.str s => s.data
  | Arg.int n => formatInt n

/-- Text produced by one verb applied to one operand. A verb that does not
fit the operand type prints `%!verb(type=value)`. -/
def fmtVerb (v : Char) (a : Arg) : List Char :=
  match a with
  | Arg.str s =>
    if v = 's' ∨ v = 'v' then s.data
    else '%' :: '!' :: v :: '(' :: ("string=".data ++ s.data ++ [')'])
  | Arg.int n =>
    if v = 'd' ∨ v = 'v' then formatInt n
    else '%' :: '!' :: v :: '(' :: ("int=".data ++ formatInt n ++ [')'])

/-- Text printed for a verb that has no operand left: `%!verb(MISSING)`. -/
def missingArg (v : Char) : List Char :=
  '%' :: '!' :: v :: "(MISSING)".data

/-- The operands of the `%!(EXTRA ...)` report, separated by a comma. -/
def extraList : List Arg → List Char
  | [] => []
  | [a] => a.typeName ++ '=' :: a.default
  | a :: b :: rest => a.typeName ++ '=' :: a.default ++ ',' :: ' ' :: extraList (b :: rest)

/-- Text printed when operands remain after the format is exhausted. -/
def extraArgs (args : List Arg) : List Char :=
  "%!(EXTRA ".data ++ extraList args ++ [')']

/-- The formatting loop of `fmt.Sprintf` over the characters of the format:
plain characters are copied, `%%` prints a percent sign, any other verb
consumes the next operand. -/
def sprintfAux : List Char → List Arg → List Char
  | [], [] => []
  | [], a :: rest => extraArgs (a :: rest)
  | c :: fmt, args =>
    if c = '%' then
      match fmt, args with
      | [], args => "%!(NOVERB)".data ++ sprintfAux [] args
      | v :: fmt2, [] =>
        if v = '%' then '%' :: sprintfAux fmt2 []
        else missingArg v ++ sprintfAux fmt2 []
      | v :: fmt2, a :: rest =>
        if v = '%' then '%' :: sprintfAux fmt2 (a :: rest)
        else fmtVerb v a ++ sprintfAux fmt2 rest
    else c :: sprintfAux fmt args

/-- Go `fmt.Sprintf(format, args...)`. -/
def sprintf (format : String) (args : List Arg) : String :=
  String.mk (sprintfAux format.data args)

/-- One operand of `fmt.Sprint` / `fmt.Println`. An `error` value is kept
apart from a `string` because `Sprint` inserts a blank only between two
operands neither of which is a string. -/
inductive Operand where
  | str (s : String)
  | int (n : Int)
  | error (msg : String)
  | nil
deriving DecidableEq, Repr

/-- Whether the operand has kind `string`. -/
def Operand.isString : Operand → Bool
  | Operand.str _ => true
  | _ => false

/-- Default (`%v`) text of an operand; an error prints its `Error()` text and
a nil interface prints `<nil>`. -/
def Operand.text : Operand → String
  | Operand.str s => s
  | Operand.int n => String.mk (formatInt n)
  | Operand.error msg => msg
  | Operand.nil => "<nil>"

/-- The loop of `fmt.Sprint`: `first` tells that no operand was printed yet,
`prevString` that the previous operand was a string. -/
def sprintAux : Bool → Bool → List Operand → String
  | _, _, [] => ""
  | first, prevString, a :: rest =>
    (if !first && !a.isString && !prevString then " " else "")
      ++ a.text ++ sprintAux false a.isString rest

/-- Go `fmt.Sprint(a...)`. -/
def sprint (a : List Operand) : String :=
  sprintAux true false a

/-- Go `fmt.Sprintln(a...)`: a blank between all operands, a newline at the end. -/
def sprintln (a : List Operand) : String :=
  " ".intercalate (a.map Operand.text) ++ "\n"

/-- An error result as the operand Go passes on: `nil` when there is none. -/
def errOperand : Option String → Operand
  | some msg => Operand.error msg
  | none => Operand.nil

/-! ## Observable actions and outcomes -/

/-- What a service does that can be observed from outside, in order. -/
inductive Action where
  | stdout (text : String)
  | log (text : String)
  | listen (network : String) (addr : String)
  | readFrom
  | writeTo (payload : String) (dest : String)
  | openFile (path : String)
  | read
  | locationData (data : List Nat)
  | sleep (seconds : Nat)
  | close
deriving DecidableEq, Repr

/-- How a function of the program ends: `exit` is `os.Exit` (the whole
process stops), `returned` a normal return (only this goroutine ends),
`blocked` a blocking call for which the environment supplied no result yet
(the goroutine is still alive). -/
inductive Outcome where
  | exit (code : Nat) (trace : List Action)
  | returned (trace : List Action)
  | blocked (trace : List Action)
deriving DecidableEq, Repr

/-- The exit status, if the outcome is a process exit. -/
def Outcome.exitCode : Outcome → Option Nat
  | Outcome.exit code _ => some code
  | _ => none

/-- The actions performed up to the outcome. -/
def Outcome.trace : Outcome → List Action
  | Outcome.exit _ t => t
  | Outcome.returned t => t
  | Outcome.blocked t => t

/-- Go `log.Fatal` / `log.Fatalf` after the actions `trace`: the message is
logged and `os.Exit(1)` is called. -/
def logFatal (msg : String) (trace : List Action) : Outcome :=
  Outcome.exit 1 (trace ++ [Action.log msg])

/-- Result of a `ListenAndServe` call: still serving (the call has not
returned), or returned with an error value. -/
inductive Serve where
  | serving
  | returned (err : Option String)
deriving DecidableEq, Repr

/-- A goroutine started by `main` with the `go` statement. -/
inductive Service where
  | socksProxy (props : Props)
  | startUDPProxy (addr : String)
  | httpProxy (props : Props)
  | httpAutoDiscover (props : Props)
  | fetchLocation (verbose : Bool)
deriving DecidableEq, Repr

/-- The unit is the SOCKS5 proxy. -/
def Service.isSocks : Service → Bool
  | Service.socksProxy _ => true
  | _ => false

/-- The unit is the UDP relay. -/
def Service.isUDP : Service → Bool
  | Service.startUDPProxy _ => true
  | _ => false

/-- The unit is the HTTP proxy. -/
def Service.isHTTP : Service → Bool
  | Service.httpProxy _ => true
  | _ => false

/-- The unit is the discovery endpoint. -/
def Service.isDiscovery : Service → Bool
  | Service.httpAutoDiscover _ => true
  | _ => false

/-- The unit is the location stream. -/
def Service.isLocation : Service → Bool
  | Service.fetchLocation _ => true
  | _ => false

/-- What the `/proxy` handler hands to the response writer. -/
structure Response where
  stdout : List String
  header : List (String × String)
  body : String
deriving DecidableEq, Repr

/-- A signal registered with `signal.Notify`. -/
inductive Signal where
  | interrupt
  | sigterm
deriving DecidableEq, Repr

/-! ## Package `flag` -/

/-- Value of a command-line flag. -/
inductive FlagValue where
  | str (s : String)
  | int (n : Int)
  | bool (b : Bool)
deriving DecidableEq, Repr

/-- Whether two flag values have the same Go type. -/
def FlagValue.sameType : FlagValue → FlagValue → Bool
  | FlagValue.str _, FlagValue.str _ => true
  | FlagValue.int _, FlagValue.int _ => true
  | FlagValue.bool _, FlagValue.bool _ => true
  | _, _ => false

/-- The flag set `flag.CommandLine`: the variable of each defined flag, by
name, with its current value. A pointer returned by `flag.String`,
`flag.Int` or `flag.Bool` is the flag name; dereferencing reads the current
value. -/
abbrev FlagSet := List (String × FlagValue)

/-- Define a flag: a fresh variable holding the default (`flag.String`, ...). -/
def FlagSet.define (fs : FlagSet) (name : String) (dflt : FlagValue) : FlagSet :=
  fs ++ [(name, dflt)]

/-- Store `v` in the variable of flag `name`. -/
def FlagSet.assign (fs : FlagSet) (name : String) (v : FlagValue) : FlagSet :=
  fs.map fun e => if e.1 = name then (e.1, v) else e

/-- Dereference a `*string` flag pointer. -/
def FlagSet.getString (fs : FlagSet) (name : String) : String :=
  match fs.lookup name with
  | some (FlagValue.str s) => s
  | _ => ""

/-- Dereference a `*int` flag pointer. -/
def FlagSet.getInt (fs : FlagSet) (name : String) : Int :=
  match fs.lookup name with
  | some (FlagValue.int n) => n
  | _ => 0

/-- Dereference a `*bool` flag pointer. -/
def FlagSet.getBool (fs : FlagSet) (name : String) : Bool :=
  match fs.lookup name with
  | some (FlagValue.bool b) => b
  | _ => false

/-- Go `flag.Parse()` over a command line given as the list of supplied
flags with their values, left to right. Each supplied value is stored in the
variable of its flag. A flag that is not defined, or a value of the wrong
type, ends the process: status 0 for an undefined `-h` / `-help`, status 2
otherwise (error handling `ExitOnError`). -/
def FlagSet.parse : FlagSet → List (String × FlagValue) → Except Nat FlagSet
  | fs, [] => Except.ok fs
  | fs, (name, v) :: rest =>
    match fs.lookup name with
    | none => if name = "help" ∨ name = "h" then Except.error 0 else Except.error 2
    | some old =>
      if old.sameType v then FlagSet.parse (fs.assign name v) rest
      else Except.error 2

/-- Result of `main` up to the call of `loop`: the process ended with a
status, or `props` was built and the listed units were started. -/
inductive MainResult where
  | exit (code : Nat)
  | serving (props : Props) (units : List Service)
deriving DecidableEq, Repr

/-! ## Environment of the relay and location loops -/

/-- Result of one `conn.ReadFrom(buf)`: the bytes received, the sender, and
the error value. -/
structure Datagram where
  data : List Nat
  remoteAddr : String
  err : Option String
deriving DecidableEq, Repr

/-- What the environment supplies to one iteration of the relay loop: the
result of `ReadFrom` and, in case the iteration writes, the error value of
`WriteTo`. -/
structure RelayEvent where
  recv : Datagram
  writeErr : Option String
deriving DecidableEq, Repr

/-- Error value of a file read: the sentinel `io.EOF` or any other error. -/
inductive ReadErr where
  | eof
  | other (msg : String)
deriving DecidableEq, Repr

/-- The `Error()` text of a read error. -/
def ReadErr.text : ReadErr → String
  | ReadErr.eof => "EOF"
  | ReadErr.other msg => msg

/-- Result of one `reader.Read(p)`: the bytes read (`n` is their number) and
the error value. -/
structure FileRead where
  data : List Nat
  err : Option ReadErr
deriving DecidableEq, Repr

/-! ## Variant `iproxy.go` -/

namespace IProxy

/-- The start-up block of `main` in `iproxy.go` (the `if` statements before
`loop()`): the goroutines started for `props`, in program order. -/
def dispatch (props : Props) : List Service :=
  (if props.socks ≠ 0 then
      [Service.socksProxy props,
       Service.startUDPProxy (sprintf "%s:%d" [Arg.str props.addr, Arg.int props.socks])]
    else [])
  ++ (if props.http ≠ 0 then [Service.httpProxy props] else [])
  ++ (if props.discovery ≠ 0 then [Service.httpAutoDiscover props] else [])
  ++ (if props.location then [Service.fetchLocation props.verbose] else [])

/-- Function `main` of `iproxy.go`. Each field of the `Props` literal
dereferences the pointer returned by `flag.String` / `flag.Int` /
`flag.Bool` right where the flag is defined; `flag.Parse()` runs after the
literal is complete. -/
def main (args : List (String × FlagValue)) : MainResult :=
  let fs : FlagSet := []
  let fs := fs.define "a" (FlagValue.str "172.20.10.1")
  let addr := fs.getString "a"
  let fs := fs.define "b" (FlagValue.str "::")
  let bind := fs.getString "b"
  let fs := fs.define "s" (FlagValue.int 1080)
  let socks := fs.getInt "s"
  let fs := fs.define "p" (FlagValue.int 3128)
  let http := fs.getInt "p"
  let fs := fs.define "d" (FlagValue.int 0)
  let discovery := fs.getInt "d"
  let fs := fs.define "l" (FlagValue.bool false)
  let location := fs.getBool "l"
  let fs := fs.define "v" (FlagValue.bool false)
  let verbose := fs.getBool "v"
  let props : Props :=
    { addr := addr, bind := bind, socks := socks, http := http,
      discovery := discovery, location := location, verbose := verbose }
  match fs.parse args with
  | Except.error code => MainResult.exit code
  | Except.ok _ => MainResult.serving props (dispatch props)

/-- Function `socksProxy` of `iproxy.go`; `newErr` is the error value of
`socks5.New`, `serve` the result of `server.ListenAndServe`. -/
def socksProxy (props : Props) (newErr : Option String) (serve : Serve) : Outcome :=
  let addr := sprintf "%s:%d" [Arg.str props.addr, Arg.int props.socks]
  let t := [Action.stdout (sprintln [Operand.str "Starting SOCKS5 proxy at", Operand.str addr])]
  match newErr with
  | some e => logFatal (sprintf "Failed to start SOCKS5 proxy: %v" [Arg.str e]) t
  | none =>
    let t := t ++ [Action.listen "tcp" addr]
    match serve with
    | Serve.serving => Outcome.blocked t
    | Serve.returned (some e) => logFatal (sprintf "SOCKS5 server error: %v" [Arg.str e]) t
    | Serve.returned none => Outcome.returned t

/-- The fixed reply of the relay, `[]byte("UDP Proxy Received")`. -/
def udpReply : String := "UDP Proxy Received"

/-- One pass through the body of the `for` loop of `startUDPProxy`. -/
def udpIteration (e : RelayEvent) : List Action :=
  match e.recv.err with
  | some err =>
    [Action.readFrom, Action.log (sprintf "UDP Read error: %v" [Arg.str err])]
  | none =>
    [Action.readFrom,
     Action.log (sprintf "Received UDP packet from %v" [Arg.str e.recv.remoteAddr]),
     Action.writeTo udpReply e.recv.remoteAddr]
    ++ (match e.writeErr with
        | some werr => [Action.log (sprintf "UDP Write error: %v" [Arg.str werr])]
        | none => [])

/-- The `for` loop of `startUDPProxy` run against the events the environment
supplies; when they are used up the loop sits in the next `ReadFrom`. -/
def udpLoop : List RelayEvent → List Action
  | [] => [Action.readFrom]
  | e :: rest => udpIteration e ++ udpLoop rest

/-- Function `startUDPProxy` of `iproxy.go`; `listenErr` is the error value
of `net.ListenPacket`. -/
def startUDPProxy (addr : String) (listenErr : Option String)
    (events : List RelayEvent) : Outcome :=
  let t := [Action.listen "udp" addr]
  match listenErr with
  | some e => logFatal (sprintf "Failed to start UDP proxy: %v" [Arg.str e]) t
  | none => Outcome.blocked (t ++ udpLoop events)

/-- Function `httpProxy` of `iproxy.go`; `serve` is the result of
`http.ListenAndServe`. -/
def httpProxy (props : Props) (serve : Serve) : Outcome :=
  let addr := sprintf "%s:%d" [Arg.str props.addr, Arg.int props.http]
  let t := [Action.stdout (sprintln [Operand.str "Starting HTTP proxy at", Operand.str addr]),
            Action.listen "tcp" addr]
  match serve with
  | Serve.serving => Outcome.blocked t
  | Serve.returned err => logFatal (sprint [errOperand err]) t

/-- The `/proxy` handler registered by `httpAutoDiscover` in `iproxy.go`. -/
def proxyHandler (props : Props) : Response :=
  { stdout := []
    header := []
    body := sprintf
      "function FindProxyForURL(url, host) \x7b return 'SOCKS5 %s:%d; DIRECT'; \x7d"
      [Arg.str props.addr, Arg.int props.socks] }

/-- Function `httpAutoDiscover` of `iproxy.go`; `serve` is the result of
`http.ListenAndServe`. -/
def httpAutoDiscover (props : Props) (serve : Serve) : Outcome :=
  let addr := sprintf "%s:%d" [Arg.str props.bind, Arg.int props.discovery]
  let t := [Action.stdout (sprintln [Operand.str "Starting HTTP auto-discovery at", Operand.str addr]),
            Action.listen "tcp" addr]
  match serve with
  | Serve.serving => Outcome.blocked t
  | Serve.returned err => logFatal (sprint [errOperand err]) t

/-- Function `loop` of `iproxy.go`, against the signals delivered while it
waits: a goroutine receives from the channel and calls `os.Exit(1)`; the
function itself sleeps for ever. -/
def loop : List Signal → Outcome
  | [] => Outcome.blocked []
  | _ :: _ => Outcome.exit 1 []

end IProxy

/-! ## Variant `myproxy.go` -/

namespace MyProxy

/-- The start-up block of `main` in `myproxy.go` (the `if` statements before
`loop()`): the goroutines started for `props`, in program order. -/
def dispatch (props : Props) : List Service :=
  (if props.discovery ≠ 0 then [Service.httpAutoDiscover props] else [])
  ++ (if props.http ≠ 0 then [Service.httpProxy props] else [])
  ++ (if props.socks ≠ 0 then [Service.socksProxy props] else [])
  ++ (if props.location then [Service.fetchLocation props.verbose] else [])

/-- Function `main` of `myproxy.go`: the flags are defined, `flag.Parse()`
runs, and only then the pointers are dereferenced into `props`. -/
def main (args : List (String × FlagValue)) : MainResult :=
  let fs : FlagSet := []
  let fs := fs.define "a" (FlagValue.str "172.20.10.1")
  let fs := fs.define "b" (FlagValue.str "0.0.0.0")
  let fs := fs.define "s" (FlagValue.int 0)
  let fs := fs.define "p" (FlagValue.int 0)
  let fs := fs.define "d" (FlagValue.int 0)
  let fs := fs.define "l" (FlagValue.bool false)
  let fs := fs.define "v" (FlagValue.bool false)
  let fs := fs.define "h" (FlagValue.bool false)
  match fs.parse args with
  | Except.error code => MainResult.exit code
  | Except.ok fs =>
    let props : Props :=
      { addr := fs.getString "a", bind := fs.getString "b", socks := fs.getInt "s",
        http := fs.getInt "p", discovery := fs.getInt "d",
        location := fs.getBool "l", verbose := fs.getBool "v" }
    if fs.getBool "h" then MainResult.exit 0
    else MainResult.serving props (dispatch props)

/-- The loop of `fetchLocation` against the read results the environment
supplies. The flag in the result tells whether the loop was left (`break`);
when the results are used up the loop sits in the next `Read`. -/
def locationLoop (verbose : Bool) : List FileRead → List Action × Bool
  | [] => ([Action.read], false)
  | r :: rest =>
    match r.err with
    | some err =>
      ([Action.read]
        ++ (if err ≠ ReadErr.eof then
              [Action.log (sprintf "Location read error: %v"
                [Arg.str err.text])]
            else []),
       true)
    | none =>
      let next := locationLoop verbose rest
      ([Action.read]
        ++ (if verbose && decide (r.data.length > 0) then [Action.locationData r.data] else [])
        ++ [Action.sleep 1] ++ next.1,
       next.2)

/-- Function `fetchLocation` of `myproxy.go`; `openErr` is the error value of
`os.Open`. The deferred `reader.Close()` runs when the function returns. -/
def fetchLocation (verbose : Bool) (openErr : Option String)
    (reads : List FileRead) : Outcome :=
  let t := [Action.stdout (sprintln [Operand.str "Starting location streaming"]),
            Action.openFile "/dev/location"]
  match openErr with
  | some e =>
    Outcome.returned (t ++ [Action.log (sprintf "Location data open error: %v" [Arg.str e])])
  | none =>
    let r := locationLoop verbose reads
    if r.2 then Outcome.returned (t ++ r.1 ++ [Action.close])
    else Outcome.blocked (t ++ r.1)

/-- Function `proxyConfig` of `myproxy.go`: the discovery entries. -/
def proxyConfig (props : Props) : String :=
  let config := ""
  let config :=
    if props.socks ≠ 0 then
      config ++ sprintf "SOCKS5 %s:%d; " [Arg.str props.addr, Arg.int props.socks]
    else config
  let config :=
    if props.http ≠ 0 then
      config ++ sprintf "HTTP %s:%d; " [Arg.str props.addr, Arg.int props.http]
    else config
  config

/-- The `/proxy` handler registered by `httpAutoDiscover` in `myproxy.go`.
The format has two `%s` verbs and the call passes one operand. -/
def proxyHandler (props : Props) : Response :=
  { stdout := if props.verbose then [sprintln [Operand.str "Serving proxy discovery request"]] else []
    header := [("Content-Type", "text/javascript")]
    body := sprintf
      "function FindProxyForURL(url, host) \x7b\n  return '%s%s; DIRECT';\x7d"
      [Arg.str (proxyConfig props)] }

/-- Function `httpAutoDiscover` of `myproxy.go`; `serve` is the result of
`http.ListenAndServe`. -/
def httpAutoDiscover (props : Props) (serve : Serve) : Outcome :=
  let addr := sprintf "%s:%d" [Arg.str props.bind, Arg.int props.discovery]
  let t := [Action.stdout (sprintln [Operand.str "Starting http discovery at", Operand.str addr]),
            Action.listen "tcp" addr]
  match serve with
  | Serve.serving => Outcome.blocked t
  | Serve.returned err => logFatal (sprint [errOperand err]) t

/-- Function `loop` of `myproxy.go`, against the signals delivered while it
waits on the channel: the first one is received, a line is printed and
`os.Exit(0)` is called. -/
def loop : List Signal → Outcome
  | [] => Outcome.blocked []
  | _ :: _ => Outcome.exit 0 [Action.stdout (sprintln [Operand.str "\nShutting down..."])]

/-- Function `httpProxy` of `myproxy.go`; `serve` is the result of
`http.ListenAndServe`. -/
def httpProxy (props : Props) (serve : Serve) : Outcome :=
  let addr := sprint [Operand.str props.addr, Operand.str ":", Operand.int props.http]
  let t := [Action.stdout (sprintln [Operand.str "Starting http proxy at", Operand.str addr]),
            Action.listen "tcp" addr]
  match serve with
  | Serve.serving => Outcome.blocked t
  | Serve.returned err => logFatal (sprint [errOperand err]) t

/-- Function `socksProxy` of `myproxy.go`; `newErr` is the error value of
`socks5.New`, `serve` the result of `server.ListenAndServe`. -/
def socksProxy (props : Props) (newErr : Option String) (serve : Serve) : Outcome :=
  let addr := sprintf "%s:%d" [Arg.str props.bind, Arg.int props.socks]
  let t := [Action.stdout (sprintln [Operand.str "Starting socks5 proxy at", Operand.str addr])]
  match newErr with
  | some e => logFatal (sprint [Operand.str "SOCKS5 server creation error:", Operand.error e]) t
  | none =>
    let t := t ++ [Action.listen "tcp" addr]
    match serve with
    | Serve.serving => Outcome.blocked t
    | Serve.returned (some e) =>
      logFatal (sprint [Operand.str "SOCKS5 server error:", Operand.error e]) t
    | Serve.returned none => Outcome.returned t

end MyProxy

/-! ## Vocabulary of the statements -/

/-- The characters of a text that are not white space. -/
def stripSpace (s : String) : List Char :=
  s.data.filter fun c => !c.isWhitespace

/-- The datagram an action sends, as payload and destination. -/
def Action.sent : Action → Option (String × String)
  | Action.writeTo payload dest => some (payload, dest)
  | _ => none

/-- The datagrams sent in a trace, in order. -/
def sentDatagrams (t : List Action) : List (String × String) :=
  t.filterMap Action.sent

/-- The trace of a run of successful reads of the location source, as the
specification describes it: each read, the sample printed when verbose and
not empty, then the one-second delay. -/
def okReads (verbose : Bool) : List FileRead → List Action
  | [] => []
  | r :: rest =>
    [Action.read]
      ++ (if verbose = true ∧ r.data ≠ [] then [Action.locationData r.data] else [])
      ++ [Action.sleep 1] ++ okReads verbose rest

/-- The configuration `iproxy.go` runs with when no flag is given. -/
def IProxy.defaults : Props :=
  { addr := "172.20.10.1", bind := "::", socks := 1080, http := 3128,
    discovery := 0, verbose := false, location := false }

/-- A configuration with only the SOCKS5 port set, used to instantiate
statements. -/
def socksOnly : Props :=
  { addr := "10.0.0.5", bind := "::", socks := 1080, http := 0,
    discovery := 0, verbose := false, location := false }

/-! ## Formatting lemmas -/

theorem formatInt_toString (n : Int) : String.mk (formatInt n) = toString n := by
  cases n <;> rfl

theorem toString_data (n : Int) : (toString n).data = formatInt n := by
  rw [← formatInt_toString]

theorem sprintf_addr_port (a : String) (n : Int) :
    sprintf "%s:%d" [Arg.str a, Arg.int n] = a ++ ":" ++ toString n := by
  apply String.ext
  simp [sprintf, sprintfAux, fmtVerb, String.data_append, toString_data]

theorem sprintf_socks_entry (a : String) (n : Int) :
    sprintf "SOCKS5 %s:%d; " [Arg.str a, Arg.int n]
      = "SOCKS5 " ++ a ++ ":" ++ toString n ++ "; " := by
  apply String.ext
  simp [sprintf, sprintfAux, fmtVerb, String.data_append, toString_data]

theorem sprintf_http_entry (a : String) (n : Int) :
    sprintf "HTTP %s:%d; " [Arg.str a, Arg.int n]
      = "HTTP " ++ a ++ ":" ++ toString n ++ "; " := by
  apply String.ext
  simp [sprintf, sprintfAux, fmtVerb, String.data_append, toString_data]

/-! ## Discovery entries and script -/

/-- C1: the entries text built by `proxyConfig` is the SOCKS5 entry (when
`socks` is not 0) followed by the HTTP entry (when `http` is not 0) and
nothing else, each with the advertised address and the port in decimal; it
does not depend on the bind address; and for 10.0.0.5, 1080, 3128 it is
exactly the two entries of the example. -/
theorem proxyConfig_entries (props : Props) :
    MyProxy.proxyConfig props
      = (if props.socks ≠ 0 then
            "SOCKS5 " ++ props.addr ++ ":" ++ toString props.socks ++ "; " else "")
        ++ (if props.http ≠ 0 then
            "HTTP " ++ props.addr ++ ":" ++ toString props.http ++ "; " else "")
    ∧ (∀ b : String, MyProxy.proxyConfig { props with bind := b } = MyProxy.proxyConfig props)
    ∧ MyProxy.proxyConfig
        { addr := "10.0.0.5", bind := "0.0.0.0", socks := 1080, http := 3128,
          discovery := 0, verbose := false, location := false }
        = "SOCKS5 10.0.0.5:1080; HTTP 10.0.0.5:3128; " := by
  refine ⟨?_, ?_, by decide⟩
  · simp only [MyProxy.proxyConfig, sprintf_socks_entry, sprintf_http_entry]
    by_cases hs : props.socks = 0 <;> by_cases hh : props.http = 0 <;> simp [hs, hh]
  · intro b
    rfl

/-- C2: the body the `/proxy` handler of `myproxy.go` writes is the entries
text followed by `%!s(MISSING); DIRECT` (the format has a second `%s` with no
operand), so with both ports 0 it is not the `DIRECT`-only script, even with
white space removed; the handler of `iproxy.go` writes a SOCKS5 entry with
port 0 for the same configuration. -/
theorem proxyHandler_body_not_direct_only :
    (∀ props : Props, (MyProxy.proxyHandler props).body
        = "function FindProxyForURL(url, host) \x7b\n  return '"
          ++ MyProxy.proxyConfig props ++ "%!s(MISSING); DIRECT';\x7d")
    ∧ (MyProxy.proxyHandler
        { addr := "10.0.0.5", bind := "0.0.0.0", socks := 0, http := 0,
          discovery := 8080, verbose := false, location := false }).body
        = "function FindProxyForURL(url, host) \x7b\n  return '%!s(MISSING); DIRECT';\x7d"
    ∧ stripSpace (MyProxy.proxyHandler
        { addr := "10.0.0.5", bind := "0.0.0.0", socks := 0, http := 0,
          discovery := 8080, verbose := false, location := false }).body
        ≠ stripSpace "function FindProxyForURL(url, host) \x7b return 'DIRECT'; \x7d"
    ∧ (IProxy.proxyHandler
        { addr := "10.0.0.5", bind := "0.0.0.0", socks := 0, http := 0,
          discovery := 8080, verbose := false, location := false }).body
        = "function FindProxyForURL(url, host) \x7b return 'SOCKS5 10.0.0.5:0; DIRECT'; \x7d"
    ∧ stripSpace (IProxy.proxyHandler
        { addr := "10.0.0.5", bind := "0.0.0.0", socks := 0, http := 0,
          discovery := 8080, verbose := false, location := false }).body
        ≠ stripSpace "function FindProxyForURL(url, host) \x7b return 'DIRECT'; \x7d" := by
  refine ⟨?_, by decide, by decide, by decide, by decide⟩
  intro props
  apply String.ext
  simp [MyProxy.proxyHandler, sprintf, sprintfAux, fmtVerb, missingArg, String.data_append]

/-! ## Dispatch -/

/-- C3: in both variants the start-up block of `main` starts the SOCKS5
proxy exactly when `socks` is not 0, the HTTP proxy exactly when `http` is
not 0, the discovery endpoint exactly when `discovery` is not 0 and the
location stream exactly when `location` is set; the UDP relay is started by
`iproxy.go` exactly when `socks` is not 0 and never by `myproxy.go`. -/
theorem dispatch_iff_enabled (props : Props) :
    ((IProxy.dispatch props).any Service.isSocks = true ↔ props.socks ≠ 0)
    ∧ ((IProxy.dispatch props).any Service.isUDP = true ↔ props.socks ≠ 0)
    ∧ ((IProxy.dispatch props).any Service.isHTTP = true ↔ props.http ≠ 0)
    ∧ ((IProxy.dispatch props).any Service.isDiscovery = true ↔ props.discovery ≠ 0)
    ∧ ((IProxy.dispatch props).any Service.isLocation = true ↔ props.location = true)
    ∧ ((MyProxy.dispatch props).any Service.isSocks = true ↔ props.socks ≠ 0)
    ∧ (MyProxy.dispatch props).any Service.isUDP = false
    ∧ ((MyProxy.dispatch props).any Service.isHTTP = true ↔ props.http ≠ 0)
    ∧ ((MyProxy.dispatch props).any Service.isDiscovery = true ↔ props.discovery ≠ 0)
    ∧ ((MyProxy.dispatch props).any Service.isLocation = true ↔ props.location = true) := by
  unfold IProxy.dispatch MyProxy.dispatch
  by_cases hs : props.socks = 0 <;> by_cases hh : props.http = 0 <;>
    by_cases hd : props.discovery = 0 <;> by_cases hl : props.location = true <;>
    simp [hs, hh, hd, hl, Service.isSocks, Service.isUDP, Service.isHTTP,
      Service.isDiscovery, Service.isLocation]

/-- C4 fails for `myproxy.go`: started with `-s 1080` its `main` starts the
SOCKS5 proxy alone, and no UDP relay. -/
theorem myproxy_starts_no_udp_relay :
    MyProxy.main [("s", FlagValue.int 1080)]
      = MainResult.serving
          { addr := "172.20.10.1", bind := "0.0.0.0", socks := 1080, http := 0,
            discovery := 0, verbose := false, location := false }
          [Service.socksProxy
            { addr := "172.20.10.1", bind := "0.0.0.0", socks := 1080, http := 0,
              discovery := 0, verbose := false, location := false }]
    ∧ (MyProxy.dispatch
          { addr := "172.20.10.1", bind := "0.0.0.0", socks := 1080, http := 0,
            discovery := 0, verbose := false, location := false }).any Service.isUDP = false := by
  decide

/-- C4 as amended: for `socks` not 0 the start-up block of `iproxy.go` starts
the SOCKS5 proxy and one UDP relay, whose address is the advertised address,
a colon and the SOCKS5 port in decimal; the relay binds a datagram socket on
the address it is given and the SOCKS5 proxy of `iproxy.go` listens on the
same text; the start-up block of `myproxy.go` starts the SOCKS5 proxy and no
UDP relay. -/
theorem iproxy_udp_relay_paired (props : Props) (h : props.socks ≠ 0) :
    Service.socksProxy props ∈ IProxy.dispatch props
    ∧ (IProxy.dispatch props).filter Service.isUDP
        = [Service.startUDPProxy (props.addr ++ ":" ++ toString props.socks)]
    ∧ (∀ (a : String) (events : List RelayEvent),
        (IProxy.startUDPProxy a none events).trace.head? = some (Action.listen "udp" a))
    ∧ Action.listen "tcp" (props.addr ++ ":" ++ toString props.socks)
        ∈ (IProxy.socksProxy props none Serve.serving).trace
    ∧ Service.socksProxy props ∈ MyProxy.dispatch props
    ∧ (MyProxy.dispatch props).filter Service.isUDP = [] := by
  refine ⟨?_, ?_, ?_, ?_, ?_, ?_⟩
  · simp [IProxy.dispatch, h]
  · unfold IProxy.dispatch
    by_cases hh : props.http = 0 <;> by_cases hd : props.discovery = 0 <;>
      by_cases hl : props.location = true <;>
      simp [h, hh, hd, hl, Service.isUDP, sprintf_addr_port, List.filter]
  · intro a events
    simp [IProxy.startUDPProxy, Outcome.trace]
  · simp [IProxy.socksProxy, Outcome.trace, sprintf_addr_port]
  · simp [MyProxy.dispatch, h]
  · unfold MyProxy.dispatch
    by_cases hh : props.http = 0 <;> by_cases hd : props.discovery = 0 <;>
      by_cases hl : props.location = true <;>
      simp [h, hh, hd, hl, Service.isUDP, List.filter]

theorem iproxy_udp_relay_paired_witness :
    socksOnly.socks ≠ 0
    ∧ Service.socksProxy socksOnly ∈ IProxy.dispatch socksOnly
    ∧ (IProxy.dispatch socksOnly).filter Service.isUDP
        = [Service.startUDPProxy (socksOnly.addr ++ ":" ++ toString socksOnly.socks)] :=
  ⟨by decide, (iproxy_udp_relay_paired socksOnly (by decide)).1,
    (iproxy_udp_relay_paired socksOnly (by decide)).2.1⟩

/-! ## Shutdown -/

/-- C5: on a delivered signal `loop` of `iproxy.go` ends the process with
status 1, for the interrupt and for the terminate signal alike, while `loop`
of `myproxy.go` ends it with status 0. -/
theorem iproxy_loop_exit_status :
    (∀ (sig : Signal) (rest : List Signal), (IProxy.loop (sig :: rest)).exitCode = some 1)
    ∧ IProxy.loop [Signal.interrupt] = Outcome.exit 1 []
    ∧ IProxy.loop [Signal.sigterm] = Outcome.exit 1 []
    ∧ (∀ (sig : Signal) (rest : List Signal), (MyProxy.loop (sig :: rest)).exitCode = some 0) :=
  ⟨fun _ _ => rfl, rfl, rfl, fun _ _ => rfl⟩

/-! ## UDP relay -/

theorem sprintf_read_error (m : String) :
    sprintf "UDP Read error: %v" [Arg.str m] = "UDP Read error: " ++ m := by
  apply String.ext
  simp [sprintf, sprintfAux, fmtVerb, String.data_append]

theorem sprintf_received (m : String) :
    sprintf "Received UDP packet from %v" [Arg.str m] = "Received UDP packet from " ++ m := by
  apply String.ext
  simp [sprintf, sprintfAux, fmtVerb, String.data_append]

theorem sprintf_write_error (m : String) :
    sprintf "UDP Write error: %v" [Arg.str m] = "UDP Write error: " ++ m := by
  apply String.ext
  simp [sprintf, sprintfAux, fmtVerb, String.data_append]

theorem sentDatagrams_append (s t : List Action) :
    sentDatagrams (s ++ t) = sentDatagrams s ++ sentDatagrams t := by
  simp [sentDatagrams]

theorem sentDatagrams_udpIteration (e : RelayEvent) :
    sentDatagrams (IProxy.udpIteration e)
      = if e.recv.err = none then [(IProxy.udpReply, e.recv.remoteAddr)] else [] := by
  unfold IProxy.udpIteration
  cases h : e.recv.err <;> cases hw : e.writeErr <;> simp [sentDatagrams, Action.sent]

theorem sentDatagrams_udpLoop (events : List RelayEvent) :
    sentDatagrams (IProxy.udpLoop events)
      = (events.filter fun e => decide (e.recv.err = none)).map
          fun e => (IProxy.udpReply, e.recv.remoteAddr) := by
  induction events with
  | nil => simp [IProxy.udpLoop, sentDatagrams, Action.sent]
  | cons e rest ih =>
    rw [IProxy.udpLoop, sentDatagrams_append, sentDatagrams_udpIteration, ih]
    by_cases h : e.recv.err = none <;> simp [h]

theorem udpLoop_append (pre : List RelayEvent) :
    ∃ t0 : List Action, IProxy.udpLoop pre = t0 ++ [Action.readFrom]
      ∧ ∀ rest : List RelayEvent, IProxy.udpLoop (pre ++ rest) = t0 ++ IProxy.udpLoop rest := by
  induction pre with
  | nil => exact ⟨[], rfl, fun _ => rfl⟩
  | cons e pre ih =>
    obtain ⟨t0, h0, hrest⟩ := ih
    refine ⟨IProxy.udpIteration e ++ t0, ?_, ?_⟩
    · simp [IProxy.udpLoop, h0]
    · intro rest
      simp [IProxy.udpLoop, hrest]

/-- C6: an iteration of the relay loop that receives a datagram sends exactly
one datagram, to the sender, with payload `UDP Proxy Received`; two such
iterations send the same payload whatever bytes they received; and over any
run of the loop the datagrams sent are one fixed reply per received datagram,
addressed to its sender. -/
theorem udp_reply_fixed (e1 e2 : RelayEvent)
    (h1 : e1.recv.err = none) (h2 : e2.recv.err = none) :
    sentDatagrams (IProxy.udpIteration e1) = [("UDP Proxy Received", e1.recv.remoteAddr)]
    ∧ (sentDatagrams (IProxy.udpIteration e1)).map Prod.fst
        = (sentDatagrams (IProxy.udpIteration e2)).map Prod.fst
    ∧ (∀ (addr : String) (events : List RelayEvent),
        sentDatagrams (IProxy.startUDPProxy addr none events).trace
          = (events.filter fun e => decide (e.recv.err = none)).map
              fun e => ("UDP Proxy Received", e.recv.remoteAddr)) := by
  refine ⟨?_, ?_, ?_⟩
  · rw [sentDatagrams_udpIteration, if_pos h1]; rfl
  · rw [sentDatagrams_udpIteration, sentDatagrams_udpIteration, if_pos h1, if_pos h2]; rfl
  · intro addr events
    simp only [IProxy.startUDPProxy, Outcome.trace]
    rw [sentDatagrams_append, sentDatagrams_udpLoop]
    simp [sentDatagrams, Action.sent, IProxy.udpReply]

theorem udp_reply_fixed_witness :
    (RelayEvent.mk (Datagram.mk [112, 105, 110, 103] "192.0.2.7:5000" none) none).recv.err = none
    ∧ (RelayEvent.mk (Datagram.mk [] "192.0.2.9:6000" none) (some "refused")).recv.err = none
    ∧ sentDatagrams (IProxy.udpIteration
        (RelayEvent.mk (Datagram.mk [112, 105, 110, 103] "192.0.2.7:5000" none) none))
        = [("UDP Proxy Received", "192.0.2.7:5000")] :=
  ⟨rfl, rfl,
    (udp_reply_fixed
      (RelayEvent.mk (Datagram.mk [112, 105, 110, 103] "192.0.2.7:5000" none) none)
      (RelayEvent.mk (Datagram.mk [] "192.0.2.9:6000" none) (some "refused")) rfl rfl).1⟩

/-- C9: an iteration whose `ReadFrom` fails only logs the error (no datagram,
no exit), an iteration whose reply write fails logs that error after the
write; in either case, and for any event, the relay is still running after
the iteration and goes on with the next `ReadFrom` exactly as a fresh loop
would on the remaining events. -/
theorem udp_errors_not_fatal (addr : String) (pre post : List RelayEvent)
    (e1 e2 : RelayEvent) (msg werr : String)
    (h1 : e1.recv.err = some msg) (h2 : e2.recv.err = none) (h3 : e2.writeErr = some werr) :
    IProxy.udpIteration e1 = [Action.readFrom, Action.log ("UDP Read error: " ++ msg)]
    ∧ IProxy.udpIteration e2
        = [Action.readFrom, Action.log ("Received UDP packet from " ++ e2.recv.remoteAddr),
           Action.writeTo "UDP Proxy Received" e2.recv.remoteAddr,
           Action.log ("UDP Write error: " ++ werr)]
    ∧ (∀ e : RelayEvent, ∃ t0 : List Action,
        IProxy.startUDPProxy addr none pre = Outcome.blocked (t0 ++ [Action.readFrom])
        ∧ IProxy.startUDPProxy addr none (pre ++ e :: post)
            = Outcome.blocked (t0 ++ IProxy.udpIteration e ++ IProxy.udpLoop post))
    ∧ (IProxy.udpLoop post).head? = some Action.readFrom := by
  refine ⟨?_, ?_, ?_, ?_⟩
  · simp [IProxy.udpIteration, h1, sprintf_read_error]
  · simp [IProxy.udpIteration, h2, h3, sprintf_received, sprintf_write_error, IProxy.udpReply]
  · intro e
    obtain ⟨t0, h0, hrest⟩ := udpLoop_append pre
    refine ⟨Action.listen "udp" addr :: t0, ?_, ?_⟩
    · simp [IProxy.startUDPProxy, h0]
    · simp [IProxy.startUDPProxy, hrest, IProxy.udpLoop]
  · cases post with
    | nil => rfl
    | cons e rest =>
      cases h : e.recv.err <;> simp [IProxy.udpLoop, IProxy.udpIteration, h]

theorem udp_errors_not_fatal_witness :
    (RelayEvent.mk (Datagram.mk [] "" (some "timeout")) none).recv.err = some "timeout"
    ∧ (RelayEvent.mk (Datagram.mk [1] "192.0.2.7:5000" none) (some "refused")).recv.err = none
    ∧ (RelayEvent.mk (Datagram.mk [1] "192.0.2.7:5000" none) (some "refused")).writeErr
        = some "refused"
    ∧ IProxy.udpIteration (RelayEvent.mk (Datagram.mk [] "" (some "timeout")) none)
        = [Action.readFrom, Action.log ("UDP Read error: " ++ "timeout")] :=
  ⟨rfl, rfl, rfl,
    (udp_errors_not_fatal "10.0.0.5:1080" [] []
      (RelayEvent.mk (Datagram.mk [] "" (some "timeout")) none)
      (RelayEvent.mk (Datagram.mk [1] "192.0.2.7:5000" none) (some "refused"))
      "timeout" "refused" rfl rfl rfl).1⟩

/-! ## Fatal listener errors -/

/-- C7: in both variants, when the listen or serve call of a listener
service returns an error (and when `socks5.New` does), the outcome of the
service is a process exit with status 1, whatever the configuration: the
SOCKS5 proxy, the UDP relay (bind error), the HTTP proxy and the discovery
endpoint. -/
theorem listener_error_exits_one (props : Props) (e : String) (addr : String)
    (events : List RelayEvent) (serve : Serve) :
    (IProxy.socksProxy props none (Serve.returned (some e))).exitCode = some 1
    ∧ (IProxy.socksProxy props (some e) serve).exitCode = some 1
    ∧ (IProxy.startUDPProxy addr (some e) events).exitCode = some 1
    ∧ (IProxy.httpProxy props (Serve.returned (some e))).exitCode = some 1
    ∧ (IProxy.httpAutoDiscover props (Serve.returned (some e))).exitCode = some 1
    ∧ (MyProxy.socksProxy props none (Serve.returned (some e))).exitCode = some 1
    ∧ (MyProxy.socksProxy props (some e) serve).exitCode = some 1
    ∧ (MyProxy.httpProxy props (Serve.returned (some e))).exitCode = some 1
    ∧ (MyProxy.httpAutoDiscover props (Serve.returned (some e))).exitCode = some 1 :=
  ⟨rfl, rfl, rfl, rfl, rfl, rfl, rfl, rfl, rfl⟩

/-! ## Command line -/

/-- C8: `main` of `iproxy.go` builds `props` from the flag defaults whatever
the command line says: with `-s n` it still runs with `socks` 1080 and starts
the SOCKS5 proxy, the UDP relay and the HTTP proxy, also for `-s 0`; `main`
of `myproxy.go` given `-s n` runs with `socks` equal to `n`, and with `-s 0`
starts nothing. -/
theorem iproxy_main_ignores_flags :
    (∀ n : Int, IProxy.main [("s", FlagValue.int n)]
        = MainResult.serving IProxy.defaults
            [Service.socksProxy IProxy.defaults,
             Service.startUDPProxy "172.20.10.1:1080",
             Service.httpProxy IProxy.defaults])
    ∧ IProxy.main [("s", FlagValue.int 0)]
        = MainResult.serving
            { addr := "172.20.10.1", bind := "::", socks := 1080, http := 3128,
              discovery := 0, verbose := false, location := false }
            (IProxy.dispatch
              { addr := "172.20.10.1", bind := "::", socks := 1080, http := 3128,
                discovery := 0, verbose := false, location := false })
    ∧ (∀ args : List (String × FlagValue),
        IProxy.main args = MainResult.serving IProxy.defaults (IProxy.dispatch IProxy.defaults)
        ∨ ∃ code : Nat, IProxy.main args = MainResult.exit code)
    ∧ (∀ n : Int, MyProxy.main [("s", FlagValue.int n)]
        = MainResult.serving
            { addr := "172.20.10.1", bind := "0.0.0.0", socks := n, http := 0,
              discovery := 0, verbose := false, location := false }
            (if n ≠ 0 then
              [Service.socksProxy
                { addr := "172.20.10.1", bind := "0.0.0.0", socks := n, http := 0,
                  discovery := 0, verbose := false, location := false }]
             else []))
    ∧ MyProxy.main [("s", FlagValue.int 0)]
        = MainResult.serving
            { addr := "172.20.10.1", bind := "0.0.0.0", socks := 0, http := 0,
              discovery := 0, verbose := false, location := false } [] := by
  refine ⟨?_, by decide, ?_, ?_, by decide⟩
  · intro n
    rfl
  · intro args
    have h : IProxy.main args
        = match FlagSet.parse
            [("a", FlagValue.str "172.20.10.1"), ("b", FlagValue.str "::"),
             ("s", FlagValue.int 1080), ("p", FlagValue.int 3128), ("d", FlagValue.int 0),
             ("l", FlagValue.bool false), ("v", FlagValue.bool false)] args with
          | Except.error code => MainResult.exit code
          | Except.ok _ => MainResult.serving IProxy.defaults (IProxy.dispatch IProxy.defaults) :=
      rfl
    rw [h]
    split
    · exact Or.inr ⟨_, rfl⟩
    · exact Or.inl rfl
  · intro n
    by_cases hn : n = 0
    · subst hn
      rfl
    · simp [MyProxy.main, FlagSet.define, FlagSet.parse, FlagSet.assign, FlagSet.getString,
        FlagSet.getInt, FlagSet.getBool, FlagValue.sameType, List.lookup, MyProxy.dispatch, hn]

/-! ## Location stream -/

theorem sprintf_location_read_error (m : String) :
    sprintf "Location read error: %v" [Arg.str m] = "Location read error: " ++ m := by
  apply String.ext
  simp [sprintf, sprintfAux, fmtVerb, String.data_append]

theorem sprintf_location_open_error (m : String) :
    sprintf "Location data open error: %v" [Arg.str m] = "Location data open error: " ++ m := by
  apply String.ext
  simp [sprintf, sprintfAux, fmtVerb, String.data_append]

theorem locationLoop_all_ok (verbose : Bool) (oks : List FileRead)
    (hoks : ∀ x ∈ oks, x.err = none) :
    MyProxy.locationLoop verbose oks = (okReads verbose oks ++ [Action.read], false) := by
  induction oks with
  | nil => rfl
  | cons x xs ih =>
    have hx : x.err = none := hoks x (List.mem_cons_self _ _)
    have hxs : ∀ y ∈ xs, y.err = none := fun y hy => hoks y (List.mem_cons_of_mem _ hy)
    simp [MyProxy.locationLoop, okReads, hx, ih hxs, List.length_pos]

theorem locationLoop_first_error (verbose : Bool) (oks rest : List FileRead) (r : FileRead)
    (err : ReadErr) (hoks : ∀ x ∈ oks, x.err = none) (hr : r.err = some err) :
    MyProxy.locationLoop verbose (oks ++ r :: rest)
      = (okReads verbose oks ++ [Action.read]
          ++ (match err with
              | ReadErr.eof => []
              | ReadErr.other msg => [Action.log ("Location read error: " ++ msg)]),
         true) := by
  induction oks with
  | nil =>
    cases err <;>
      simp [MyProxy.locationLoop, okReads, hr, sprintf_location_read_error, ReadErr.text]
  | cons x xs ih =>
    have hx : x.err = none := hoks x (List.mem_cons_self _ _)
    have hxs : ∀ y ∈ xs, y.err = none := fun y hy => hoks y (List.mem_cons_of_mem _ hy)
    simp [MyProxy.locationLoop, okReads, hx, ih hxs, List.length_pos]

theorem count_read_okReads (verbose : Bool) (oks : List FileRead) :
    (okReads verbose oks).count Action.read = oks.length := by
  induction oks with
  | nil => rfl
  | cons x xs ih =>
    rw [okReads]
    split <;> simp [List.count_cons, List.count_append, ih]

theorem count_sleep_okReads (verbose : Bool) (oks : List FileRead) :
    (okReads verbose oks).count (Action.sleep 1) = oks.length := by
  induction oks with
  | nil => rfl
  | cons x xs ih =>
    rw [okReads]
    split <;> simp [List.count_cons, List.count_append, ih]

/-- C10: when the reads `oks` succeed and the next read returns an error,
`fetchLocation` returns normally after exactly that many reads plus one: its
trace is the successful reads, each followed by the one-second delay, then
the failing read, then the logged error unless the error is end-of-stream,
then the close; the read results after the failing one are never asked for.
While all reads succeed every read is followed by the delay. When the
source cannot be opened the error is logged and the function returns. -/
theorem fetchLocation_stops_at_first_error (verbose : Bool) (oks rest : List FileRead)
    (r : FileRead) (err : ReadErr)
    (hoks : ∀ x ∈ oks, x.err = none) (hr : r.err = some err) :
    MyProxy.fetchLocation verbose none (oks ++ r :: rest)
      = Outcome.returned
          ([Action.stdout "Starting location streaming\n", Action.openFile "/dev/location"]
            ++ okReads verbose oks ++ [Action.read]
            ++ (match err with
                | ReadErr.eof => []
                | ReadErr.other msg => [Action.log ("Location read error: " ++ msg)])
            ++ [Action.close])
    ∧ (MyProxy.fetchLocation verbose none (oks ++ r :: rest)).trace.count Action.read
        = oks.length + 1
    ∧ (MyProxy.fetchLocation verbose none (oks ++ r :: rest)).trace.count (Action.sleep 1)
        = oks.length
    ∧ MyProxy.fetchLocation verbose none oks
        = Outcome.blocked
            ([Action.stdout "Starting location streaming\n", Action.openFile "/dev/location"]
              ++ okReads verbose oks ++ [Action.read])
    ∧ (∀ (e : String) (reads : List FileRead),
        MyProxy.fetchLocation verbose (some e) reads
          = Outcome.returned
              [Action.stdout "Starting location streaming\n", Action.openFile "/dev/location",
               Action.log ("Location data open error: " ++ e)]) := by
  have hmain : MyProxy.fetchLocation verbose none (oks ++ r :: rest)
      = Outcome.returned
          ([Action.stdout "Starting location streaming\n", Action.openFile "/dev/location"]
            ++ okReads verbose oks ++ [Action.read]
            ++ (match err with
                | ReadErr.eof => []
                | ReadErr.other msg => [Action.log ("Location read error: " ++ msg)])
            ++ [Action.close]) := by
    have hs : sprintln [Operand.str "Starting location streaming"]
        = "Starting location streaming\n" := by decide
    simp [MyProxy.fetchLocation, locationLoop_first_error verbose oks rest r err hoks hr, hs]
  refine ⟨hmain, ?_, ?_, ?_, ?_⟩
  · rw [hmain]
    cases err <;>
      simp [Outcome.trace, List.count_cons, List.count_append, count_read_okReads]
  · rw [hmain]
    cases err <;>
      simp [Outcome.trace, List.count_cons, List.count_append, count_sleep_okReads]
  · have hs : sprintln [Operand.str "Starting location streaming"]
        = "Starting location streaming\n" := by decide
    simp [MyProxy.fetchLocation, locationLoop_all_ok verbose oks hoks, hs]
  · intro e reads
    have hs : sprintln [Operand.str "Starting location streaming"]
        = "Starting location streaming\n" := by decide
    simp [MyProxy.fetchLocation, sprintf_location_open_error, hs]

theorem fetchLocation_stops_at_first_error_witness :
    (∀ x ∈ [FileRead.mk [1, 2] none, FileRead.mk [] none], x.err = none)
    ∧ (FileRead.mk [] (some (ReadErr.other "bad"))).err = some (ReadErr.other "bad")
    ∧ MyProxy.fetchLocation true none
        ([FileRead.mk [1, 2] none, FileRead.mk [] none]
          ++ FileRead.mk [] (some (ReadErr.other "bad")) :: [FileRead.mk [3] none])
        = Outcome.returned
          ([Action.stdout "Starting location streaming\n", Action.openFile "/dev/location"]
            ++ okReads true [FileRead.mk [1, 2] none, FileRead.mk [] none] ++ [Action.read]
            ++ (match ReadErr.other "bad" with
                | ReadErr.eof => []
                | ReadErr.other msg => [Action.log ("Location read error: " ++ msg)])
            ++ [Action.close]) :=
  ⟨by decide, rfl,
    (fetchLocation_stops_at_first_error true
      [FileRead.mk [1, 2] none, FileRead.mk [] none] [FileRead.mk [3] none]
      (FileRead.mk [] (some (ReadErr.other "bad"))) (ReadErr.other "bad")
      (by decide) rfl).1⟩

end ISHProxy
